import Mathlib

/-!
# Verification of the canvas-alert-bot core (`src/bot.py`)

Shallow embedding of the bot's core logic:

* timestamps are modelled as `Int` minutes (the source works with timezone-aware
  `datetime` values; only ordering and the fixed offsets `timedelta(hours=2)` and
  `timedelta(days=days_ahead)` matter to the properties below, so a minute count
  is an order- and arithmetic-faithful model; 2 hours = 120, 1 day = 1440);
* a Canvas course's `get_assignments()` call may raise — modelled as
  `Except String (List RawAssignment)`; likewise `canvas.get_courses(...)` is an
  environment value `Except String (List Course)`;
* `scheduler.add_job` (APScheduler, called without an explicit job id) always
  appends a fresh job — modelled as list append;
* the Discord channel lookup `bot.get_channel` is an `Option`, and a channel's
  `send` may raise — modelled as `Except String Unit`.
-/

/-- A raw Canvas assignment as the API yields it: `a.due_at` may be absent
(`None` in the source), `a.name` and `a.html_url` are strings.  The ISO-8601
parsing and timezone conversion of `due_at` (line 83 of `bot.py`) is abstracted
into an already-parsed `Option Int` timestamp. -/
structure RawAssignment where
  name : String
  due_at : Option Int
  html_url : String
deriving DecidableEq, Repr

/-- A Canvas course: its display name and the result of `course.get_assignments()`,
which may raise (modelled by `Except.error`). -/
structure Course where
  name : String
  assignmentsResult : Except String (List RawAssignment)
deriving Repr

/-- The tuple `(course.name, a.name, due, a.html_url)` appended at line 85 of
`bot.py`. -/
structure Assignment where
  course : String
  title : String
  due : Int
  url : String
deriving DecidableEq, Repr

/-- Minutes in one day: `timedelta(days=1)`. -/
def minutesPerDay : Int := 24 * 60

/-- The body of the per-course loop of `get_upcoming_assignments` (lines 79-87):
the `try` block walks `course.get_assignments()`, skips assignments without a
due date, keeps those with `now <= due <= horizon`; `except Exception: continue`
makes a failing course contribute nothing. -/
def courseUpcoming (now horizon : Int) (c : Course) : List Assignment :=
  match c.assignmentsResult with
  | .error _ => []
  | .ok raws =>
    raws.filterMap (fun a =>
      match a.due_at with
      | none => none
      | some due =>
        if now ≤ due ∧ due ≤ horizon then
          some ⟨c.name, a.name, due, a.html_url⟩
        else
          none)

/-- The ordering used by `sorted(assignments, key=lambda x: x[2])`: compare by
due time. -/
def dueLE (a b : Assignment) : Prop := a.due ≤ b.due

instance : DecidableRel dueLE := fun a b => inferInstanceAs (Decidable (a.due ≤ b.due))

instance : IsTotal Assignment dueLE := ⟨fun a b => Int.le_total a.due b.due⟩

instance : IsTrans Assignment dueLE := ⟨fun _ _ _ h h' => le_trans h h'⟩

/-- Model of `get_upcoming_assignments(days_ahead=7)` (lines 74-88 of `bot.py`):
`horizon = now + timedelta(days=days_ahead)`; iterates the courses, collecting
each course's in-horizon assignments (per-course failures are swallowed by the
inner `try`), and returns them sorted ascending by due time.  The enumeration
`canvas.get_courses(enrollment_state="active")` itself is NOT inside any `try`:
if it raises, the exception propagates out of the function, which the model
expresses by returning `Except.error`.  Python's `sorted` is a stable sort, as
is `List.insertionSort`, and stable sorting by a key is extensionally unique,
so `insertionSort` computes exactly the source's output. -/
def get_upcoming_assignments (now daysAhead : Int)
    (getCourses : Except String (List Course)) : Except String (List Assignment) :=
  match getCourses with
  | .error e => .error e
  | .ok courses =>
    let horizon := now + daysAhead * minutesPerDay
    .ok (List.insertionSort dueLE ((courses.map (courseUpcoming now horizon)).flatten))

example :
    get_upcoming_assignments 0 7
      (.ok [⟨"Math", .ok [⟨"HW1", some 3000, "u1"⟩, ⟨"HW2", none, "u2"⟩,
                          ⟨"HW3", some 20000, "u3"⟩]⟩,
            ⟨"Bio", .error "boom"⟩,
            ⟨"CS", .ok [⟨"Lab", some 100, "u4"⟩]⟩])
      = .ok [⟨"CS", "Lab", 100, "u4"⟩, ⟨"Math", "HW1", 3000, "u1"⟩] := by
  rfl

/-- Python's `sep.join(parts)`: empty string on no parts, otherwise the parts
interleaved with `sep`. -/
def pyJoin (sep : String) : List String → String
  | [] => ""
  | [x] => x
  | x :: y :: rest => x ++ sep ++ pyJoin sep (y :: rest)

/-- Human rendering of a due timestamp, standing in for
`due.strftime('%b %d %I:%M %p')` (line 98).  The calendar rendering itself is
abstracted to the decimal minute count; no claim inspects its text. -/
def renderDue (due : Int) : String := toString due

/-- Model of `format_assignment(course, name, due, url)` (lines 97-98 of
`bot.py`). -/
def format_assignment (a : Assignment) : String :=
  "📌 **" ++ a.title ++ "** (" ++ a.course ++ ") — due " ++ renderDue a.due ++ " \n" ++ a.url

/-- Model of `send_message(text)` (lines 90-95 of `bot.py`).  `bot.get_channel` may fail
to resolve (`Option`); a resolved channel's `send` may succeed or raise
(`Except String Unit`); `text` plays no role in the control flow.  The result
records how the call ends: `.ok true` — message sent, returned normally;
`.ok false` — channel was `None`, the error is printed and the function returns
normally; `.error e` — `channel.send` raised and, there being no `try/except`
around it, the exception propagates out of `send_message`. -/
def send_message (channel : Option (Except String Unit)) (text : String) :
    Except String Bool :=
  match channel with
  | some sendResult =>
    match sendResult with
    | .ok _ => .ok true
    | .error e => .error e
  | none => .ok false

/-- Model of `morning_digest()` (lines 101-105): fetches, and if the list is non-empty
sends one joined message; returns the list of messages handed to
`send_message` this cycle (empty or a singleton). -/
def morning_digest (assignments : List Assignment) : List String :=
  if assignments.isEmpty then []
  else ["☀️ **Morning Digest**\n" ++ pyJoin "\n" (assignments.map format_assignment)]

/-- Model of `midday_digest()` (lines 107-111): identical control flow with its
own header. -/
def midday_digest (assignments : List Assignment) : List String :=
  if assignments.isEmpty then []
  else ["🕐 **Midday Digest**\n" ++ pyJoin "\n" (assignments.map format_assignment)]

/-- A one-shot warning job registered by
`scheduler.add_job(..., DateTrigger(run_date=warn_time))` (line 121): the
captured assignment identity and the `run_date`. -/
structure WarningJob where
  course : String
  title : String
  due : Int
  url : String
  warnAt : Int
deriving DecidableEq, Repr

/-- The text a registered warning job sends when it fires (line 120 of
`bot.py`): `f"⏳ Reminder: **{n}** ({c}) is due in 2 hours! {u}"`. -/
def warningMessage (j : WarningJob) : String :=
  "⏳ Reminder: **" ++ j.title ++ "** (" ++ j.course ++ ") is due in 2 hours! " ++ j.url

/-- Model of `schedule_two_hour_warnings()` (lines 113-121 of `bot.py`), with the fetch
result and the current scheduler job list passed explicitly: for each fetched
assignment it computes `warn_time = due - timedelta(hours=2)` and, whenever
`warn_time > now`, calls `scheduler.add_job` — which, with no job id supplied,
unconditionally appends a fresh job to the scheduler's store.  No lookup of
already-registered jobs occurs anywhere in the function. -/
def schedule_two_hour_warnings (now : Int) (assignments : List Assignment)
    (jobs : List WarningJob) : List WarningJob :=
  jobs ++ assignments.filterMap (fun a =>
    let warn_time := a.due - 2 * 60
    if warn_time > now then some ⟨a.course, a.title, a.due, a.url, warn_time⟩ else none)

/-- One warning-rescan cycle: the cron job at line 138 runs
`schedule_two_hour_warnings` against the current fetch result and scheduler
state. -/
def rescan (now : Int) (fetched : List Assignment) (jobs : List WarningJob) :
    List WarningJob :=
  schedule_two_hour_warnings now fetched jobs

/-- Jobs a rescan registers for the assignment identity
`(course, title, due)`. -/
def jobsFor (course title : String) (due : Int) (jobs : List WarningJob) :
    List WarningJob :=
  jobs.filter (fun j => j.course == course && j.title == title && j.due == due)

/-- The startup configuration: the four required `os.getenv` results
(lines 37-40 of `bot.py`).  `None` models an unset variable; Python's
`if not X` also treats the empty string as missing. -/
structure Config where
  discord_token : Option String
  discord_channel_id : Option String
  canvas_base_url : Option String
  canvas_api_token : Option String

/-- Python truthiness of an `os.getenv` result: false for `None` and for the
empty string. -/
def truthy : Option String → Bool
  | none => false
  | some s => !s.isEmpty

/-- The `missing` list built at lines 48-56 of `bot.py`, in source order. -/
def missingVars (c : Config) : List String :=
  (if truthy c.discord_token then [] else ["DISCORD_TOKEN"]) ++
  (if truthy c.discord_channel_id then [] else ["DISCORD_CHANNEL_ID"]) ++
  (if truthy c.canvas_base_url then [] else ["CANVAS_BASE_URL"]) ++
  (if truthy c.canvas_api_token then [] else ["CANVAS_API_TOKEN"])

/-- Lines 58-59 of `bot.py`: `if missing: raise SystemExit(f"❌ Missing
environment variables: {', '.join(missing)}")`.  `.error msg` models the
`SystemExit` carrying its diagnostic; `.ok ()` models startup proceeding past
the check. -/
def startupCheck (c : Config) : Except String Unit :=
  if (missingVars c).isEmpty then .ok ()
  else .error ("❌ Missing environment variables: " ++ pyJoin ", " (missingVars c))

/-- The three recurring jobs registered at lines 136-138 of `bot.py`. -/
inductive CronJob where
  | morningDigest
  | middayDigest
  | warnRescan
deriving DecidableEq, Repr

/-- The process-wide state `on_ready` reads and writes: the dynamic `booted`
attribute (absent at cold start, modelled `false`), the announcements actually
delivered so far, the scheduler's `running` flag and its recurring-job list. -/
structure BotState where
  booted : Bool
  announcements : Nat
  schedulerRunning : Bool
  cronJobs : List CronJob
deriving DecidableEq, Repr

/-- The state at process cold start: no `booted` attribute on `bot`, nothing
announced, scheduler not started, no jobs. -/
def initState : BotState :=
  { booted := false, announcements := 0, schedulerRunning := false, cronJobs := [] }

/-- Model of the announcement block of `on_ready()` (lines 126-133 of
`bot.py`) for one ready event.  `channel` is the event's environment: `none`
when `bot.get_channel(DISCORD_CHANNEL_ID)` returns `None` (the announcement is
skipped but line 131 still runs), otherwise the outcome of the awaited
`channel.send(...)` at line 130.  That send has no `try/except`: a raising
send aborts the handler (`Except.error`) BEFORE `bot.booted = True` at
line 131, so neither the `booted` attribute nor anything after it is touched.
When `bot` already carries the `booted` attribute the block only logs. -/
def announcePhase (channel : Option (Except String Unit)) (s : BotState) :
    Except String BotState :=
  if !s.booted then
    match channel with
    | none => Except.ok { s with booted := true }
    | some (Except.ok _) =>
      Except.ok { s with announcements := s.announcements + 1, booted := true }
    | some (Except.error e) => Except.error e
  else Except.ok s

/-- Model of the scheduler block of `on_ready()` (lines 135-139): when the
scheduler is not yet running, the three recurring jobs are added and the
scheduler started. -/
def schedulerPhase (s : BotState) : BotState :=
  if !s.schedulerRunning then
    { s with
      cronJobs := s.cronJobs ++
        [CronJob.morningDigest, CronJob.middayDigest, CronJob.warnRescan],
      schedulerRunning := true }
  else s

/-- Model of `on_ready()` (lines 124-139 of `bot.py`) for one ready event: the
announcement block runs first, and the scheduler block only if the former did
not raise out of the handler. -/
def on_ready (channel : Option (Except String Unit)) (s : BotState) :
    Except String BotState :=
  (announcePhase channel s).map schedulerPhase

/-- One ready event as the process observes it: `discord.py` logs an exception
escaping an event handler and keeps the client running, so an aborted
`on_ready` leaves the process state exactly as it was (no mutation precedes
the raising send). -/
def readyStep (s : BotState) (channel : Option (Except String Unit)) : BotState :=
  match on_ready channel s with
  | .ok s2 => s2
  | .error _ => s

/-- A whole process lifetime's ready events (the cold-start ready followed by
any number of reconnect-triggered ready events), applied in order. -/
def runReady (events : List (Option (Except String Unit))) : BotState :=
  events.foldl readyStep initState

example : (runReady [some (.ok ()), none, some (.ok ())]).announcements = 1 := by
  decide

example : (runReady [none, some (.ok ()), some (.ok ())]).announcements = 0 := by
  decide

example :
    (runReady [some (.error "rejected"), some (.ok ())]).announcements = 1 := by
  decide

example : (runReady [some (.ok ()), some (.ok ())]).cronJobs =
    [CronJob.morningDigest, CronJob.middayDigest, CronJob.warnRescan] := by decide

example :
    jobsFor "Math" "HW1" 10000
      (rescan 0 [⟨"Math", "HW1", 10000, "u"⟩]
        (rescan 0 [⟨"Math", "HW1", 10000, "u"⟩] [])) =
    [⟨"Math", "HW1", 10000, "u", 9880⟩, ⟨"Math", "HW1", 10000, "u", 9880⟩] := by decide

/-! ## Helper lemmas -/

/-- Every assignment a single course contributes lies in the horizon window. -/
lemma mem_courseUpcoming {now horizon : Int} {c : Course} {a : Assignment}
    (h : a ∈ courseUpcoming now horizon c) : now ≤ a.due ∧ a.due ≤ horizon := by
  unfold courseUpcoming at h
  split at h
  · exact absurd h (List.not_mem_nil a)
  · rw [List.mem_filterMap] at h
    obtain ⟨r, _, hr⟩ := h
    split at hr
    · exact Option.noConfusion hr
    · split at hr
      next hin =>
        injection hr with he
        subst he
        exact hin
      next => exact Option.noConfusion hr

/-- Characterisation of a successful fetch. -/
lemma get_upcoming_ok {now d : Int} {cs : List Course} {l : List Assignment}
    (h : get_upcoming_assignments now d (.ok cs) = .ok l) :
    l = List.insertionSort dueLE
          ((cs.map (courseUpcoming now (now + d * minutesPerDay))).flatten) := by
  unfold get_upcoming_assignments at h
  exact (Except.ok.inj h).symm

/-- Each member of a joined string can be split out of the join. -/
lemma pyJoin_mem_split (sep x : String) (l : List String) (h : x ∈ l) :
    ∃ p q, pyJoin sep l = p ++ (x ++ q) := by
  induction l with
  | nil => exact absurd h (List.not_mem_nil x)
  | cons y rest ih =>
    cases rest with
    | nil =>
      rw [List.mem_singleton] at h
      subst h
      exact ⟨"", "", by simp [pyJoin, String.empty_append, String.append_empty]⟩
    | cons z rest2 =>
      rcases List.mem_cons.mp h with rfl | h2
      · refine ⟨"", sep ++ pyJoin sep (z :: rest2), ?_⟩
        simp [pyJoin, String.append_assoc, String.empty_append]
      · obtain ⟨p, q, hpq⟩ := ih h2
        refine ⟨y ++ sep ++ p, q, ?_⟩
        simp [pyJoin, hpq, String.append_assoc]

/-! ## Claim theorems -/

/-- Claim C7: every entry a fetch returns has a due timestamp inside the
closed window `[now, now + horizon]`, and any assignment with a due timestamp
outside the window (or, by construction of the result type, with no due date
at all) is excluded from the returned list. -/
theorem fetch_horizon_filter (now d : Int) (gc : Except String (List Course))
    (l : List Assignment) (h : get_upcoming_assignments now d gc = .ok l) :
    (∀ a ∈ l, now ≤ a.due ∧ a.due ≤ now + d * minutesPerDay) ∧
    (∀ a : Assignment, (a.due < now ∨ now + d * minutesPerDay < a.due) → a ∉ l) := by
  cases gc with
  | error e => exact absurd h (by simp [get_upcoming_assignments])
  | ok cs =>
    have hl := get_upcoming_ok h
    subst hl
    have hmem : ∀ a ∈ List.insertionSort dueLE
        ((cs.map (courseUpcoming now (now + d * minutesPerDay))).flatten),
        now ≤ a.due ∧ a.due ≤ now + d * minutesPerDay := by
      intro a ha
      rw [List.mem_insertionSort, List.mem_flatten] at ha
      obtain ⟨L, hL, haL⟩ := ha
      rw [List.mem_map] at hL
      obtain ⟨c, _, rfl⟩ := hL
      exact mem_courseUpcoming haL
    refine ⟨hmem, ?_⟩
    intro a hout ha
    obtain ⟨h1, h2⟩ := hmem a ha
    cases hout with
    | inl hlt => omega
    | inr hgt => omega

/-- Claim C7, witness: a concrete fetch at `now = 0`, horizon 7 days, keeps an
assignment due at minute 100 (inside the window) and drops the one due at
minute -5 (before `now`). -/
theorem fetch_horizon_filter_witness :
    ((0:Int) ≤ (100:Int) ∧ (100:Int) ≤ 0 + 7 * minutesPerDay) ∧
    (⟨"CS", "Old", -5, "v"⟩ : Assignment) ∉ [(⟨"CS", "Lab", 100, "u"⟩ : Assignment)] :=
  have hmain := fetch_horizon_filter 0 7
    (.ok [⟨"CS", .ok [⟨"Lab", some 100, "u"⟩, ⟨"Old", some (-5), "v"⟩]⟩])
    [⟨"CS", "Lab", 100, "u"⟩] (by rfl)
  ⟨hmain.1 ⟨"CS", "Lab", 100, "u"⟩ (by decide),
   hmain.2 ⟨"CS", "Old", -5, "v"⟩ (Or.inl (by decide))⟩

/-- Claim C8: the list a successful fetch returns is sorted ascending by due
time. -/
theorem fetch_sorted_by_due (now d : Int) (gc : Except String (List Course))
    (l : List Assignment) (h : get_upcoming_assignments now d gc = .ok l) :
    l.Sorted dueLE := by
  cases gc with
  | error e => exact absurd h (by simp [get_upcoming_assignments])
  | ok cs =>
    have hl := get_upcoming_ok h
    subst hl
    exact List.sorted_insertionSort dueLE _

/-- Claim C8, witness: the concrete fetch whose raw assignments arrive
out of order comes back sorted by due time. -/
theorem fetch_sorted_by_due_witness :
    List.Sorted dueLE
      [(⟨"Math", "Lab", 100, "u4"⟩ : Assignment), ⟨"Math", "HW1", 3000, "u1"⟩] :=
  fetch_sorted_by_due 0 7
    (.ok [⟨"Math", .ok [⟨"HW1", some 3000, "u1"⟩, ⟨"Lab", some 100, "u4"⟩]⟩])
    [⟨"Math", "Lab", 100, "u4"⟩, ⟨"Math", "HW1", 3000, "u1"⟩] (by rfl)

/-- Claim C2, counterexample: when enumerating the courses themselves fails,
the fetch does not return an empty result — the exception propagates out
(`canvas.get_courses` is outside the `try` of lines 79-87). -/
theorem fetch_toplevel_failure_not_empty :
    get_upcoming_assignments 0 7 (Except.error "auth failure") ≠ Except.ok [] := by
  intro h
  rw [get_upcoming_assignments] at h
  exact Except.noConfusion h

/-- Claim C2, amended: a failure enumerating one course's assignments skips
exactly that course — the fetch result equals the fetch over the remaining
courses — while a failure at the top level (enumerating courses) propagates
out of the fetch unchanged instead of degrading to an empty result. -/
theorem fetch_failure_scoping (now d : Int) (pre post : List Course) (c : Course)
    (e : String) (hc : c.assignmentsResult = .error e) :
    get_upcoming_assignments now d (.ok (pre ++ c :: post)) =
      get_upcoming_assignments now d (.ok (pre ++ post)) ∧
    ∀ e2 : String, get_upcoming_assignments now d (.error e2) = .error e2 := by
  constructor
  · have hzero : courseUpcoming now (now + d * minutesPerDay) c = [] := by
      unfold courseUpcoming
      rw [hc]
    unfold get_upcoming_assignments
    simp [List.map_append, List.flatten_append, hzero]
  · intro e2
    rfl

/-- Claim C2, witness: a concrete two-course environment where the first
course's assignment enumeration raises — the fetch equals the fetch over the
second course alone. -/
theorem fetch_failure_scoping_witness :
    get_upcoming_assignments 0 7
      (.ok ([] ++ (⟨"Bio", .error "boom"⟩ : Course) ::
            [⟨"CS", .ok [⟨"Lab", some 100, "u4"⟩]⟩])) =
    get_upcoming_assignments 0 7
      (.ok ([] ++ [⟨"CS", .ok [⟨"Lab", some 100, "u4"⟩]⟩])) :=
  (fetch_failure_scoping 0 7 [] [⟨"CS", .ok [⟨"Lab", some 100, "u4"⟩]⟩]
    ⟨"Bio", .error "boom"⟩ "boom" rfl).1

/-- Claim C1: the code evaluated at the failing input.  With the upstream
assignment set fixed at a single assignment (course `Math`, title `HW1`, due
at minute 10000) and `now = 0`, two immediately successive rescans leave TWO
scheduled two-hour-warning jobs for that one assignment identity, not one:
`schedule_two_hour_warnings` performs no lookup of already-registered jobs,
and `scheduler.add_job` without a job id always appends. -/
theorem rescan_twice_duplicates :
    (jobsFor "Math" "HW1" 10000
      (rescan 0 [⟨"Math", "HW1", 10000, "u"⟩]
        (rescan 0 [⟨"Math", "HW1", 10000, "u"⟩] []))).length = 2 := by
  decide

/-- Claim C3: a rescan at time `now` registers a warning job only when
`warn_at = due - 2h` is strictly greater than `now` (every registered job
satisfies `warnAt = due - 120` and `now < warnAt`), and for an observed
assignment whose two-hour mark has passed or arrived (`due - 2h ≤ now`) no
job with its identity is registered — and with no job, no late warning
message is ever sent for it, since warning texts are emitted only by
registered jobs when they fire. -/
theorem late_window_no_job (now : Int) (l : List Assignment) :
    (∀ j ∈ schedule_two_hour_warnings now l [],
      j.warnAt = j.due - 2 * 60 ∧ now < j.warnAt) ∧
    (∀ a ∈ l, a.due - 2 * 60 ≤ now →
      jobsFor a.course a.title a.due (schedule_two_hour_warnings now l []) = []) := by
  have hmain : ∀ j ∈ schedule_two_hour_warnings now l [],
      j.warnAt = j.due - 2 * 60 ∧ now < j.warnAt := by
    intro j hj
    unfold schedule_two_hour_warnings at hj
    rw [List.nil_append, List.mem_filterMap] at hj
    obtain ⟨a, _, ha⟩ := hj
    dsimp only at ha
    split at ha
    next hgt =>
      injection ha with he
      subst he
      exact ⟨rfl, hgt⟩
    next => exact Option.noConfusion ha
  refine ⟨hmain, ?_⟩
  intro a _ hlate
  have hnone : ∀ j ∈ schedule_two_hour_warnings now l [],
      ¬((j.course == a.course && j.title == a.title && j.due == a.due) = true) := by
    intro j hj hbeq
    obtain ⟨hwa, hlt⟩ := hmain j hj
    simp only [Bool.and_eq_true, beq_iff_eq] at hbeq
    obtain ⟨⟨_, _⟩, hdue⟩ := hbeq
    rw [hwa, hdue] at hlt
    omega
  simpa [jobsFor, List.filter_eq_nil_iff] using hnone

/-- Claim C3, witness: an assignment due at minute 10050 observed by a rescan
at `now = 10000` (inside the two-hour window) gets no warning job. -/
theorem late_window_no_job_witness :
    jobsFor "Math" "HW1" 10050
      (schedule_two_hour_warnings 10000 [⟨"Math", "HW1", 10050, "u"⟩] []) = [] :=
  (late_window_no_job 10000 [⟨"Math", "HW1", 10050, "u"⟩]).2
    ⟨"Math", "HW1", 10050, "u"⟩ (by decide) (by decide)

/-- Claim C9: a digest cycle whose fetch comes back empty sends nothing, and a
cycle whose fetch is non-empty sends exactly one message, the join of the
formatted entries — every fetched entry's formatted line occurs inside it. -/
theorem digest_suppression_and_join (l : List Assignment) :
    (l = [] → morning_digest l = [] ∧ midday_digest l = []) ∧
    (l ≠ [] →
      (∃ m, morning_digest l = [m] ∧
        ∀ a ∈ l, ∃ p q, m = p ++ (format_assignment a ++ q)) ∧
      (∃ m, midday_digest l = [m] ∧
        ∀ a ∈ l, ∃ p q, m = p ++ (format_assignment a ++ q))) := by
  constructor
  · rintro rfl
    exact ⟨rfl, rfl⟩
  · intro hne
    have hcond : ¬(l.isEmpty = true) := by
      cases l with
      | nil => exact absurd rfl hne
      | cons x xs => simp
    constructor
    · refine ⟨"☀️ **Morning Digest**\n" ++ pyJoin "\n" (l.map format_assignment),
        ?_, ?_⟩
      · rw [morning_digest, if_neg hcond]
      · intro a ha
        obtain ⟨p, q, hpq⟩ := pyJoin_mem_split "\n" (format_assignment a)
          (l.map format_assignment) (List.mem_map_of_mem format_assignment ha)
        exact ⟨"☀️ **Morning Digest**\n" ++ p, q, by
          rw [hpq, String.append_assoc]⟩
    · refine ⟨"🕐 **Midday Digest**\n" ++ pyJoin "\n" (l.map format_assignment),
        ?_, ?_⟩
      · rw [midday_digest, if_neg hcond]
      · intro a ha
        obtain ⟨p, q, hpq⟩ := pyJoin_mem_split "\n" (format_assignment a)
          (l.map format_assignment) (List.mem_map_of_mem format_assignment ha)
        exact ⟨"🕐 **Midday Digest**\n" ++ p, q, by
          rw [hpq, String.append_assoc]⟩

/-- Claim C9, witness: the empty fetch sends nothing, and a one-assignment
fetch produces exactly one morning-digest message containing the entry. -/
theorem digest_suppression_and_join_witness :
    (morning_digest [] = [] ∧ midday_digest [] = []) ∧
    (∃ m, morning_digest [(⟨"CS", "Lab", 100, "u"⟩ : Assignment)] = [m] ∧
      ∀ a ∈ [(⟨"CS", "Lab", 100, "u"⟩ : Assignment)],
        ∃ p q, m = p ++ (format_assignment a ++ q)) :=
  ⟨(digest_suppression_and_join []).1 rfl,
   ((digest_suppression_and_join [⟨"CS", "Lab", 100, "u"⟩]).2 (by simp)).1⟩

/-- Claim C5, counterexample: a rejected send does not return normally — with
the channel resolved but its `send` raising, `send_message` propagates the
exception (there is no `try/except` around `channel.send` at line 93), rather
than logging and returning. -/
theorem send_rejected_escapes :
    send_message (some (Except.error "50013 missing permissions")) "reminder" =
      Except.error "50013 missing permissions" ∧
    send_message (some (Except.error "50013 missing permissions")) "reminder" ≠
      Except.ok true ∧
    send_message (some (Except.error "50013 missing permissions")) "reminder" ≠
      Except.ok false :=
  ⟨rfl, fun h => Except.noConfusion h, fun h => Except.noConfusion h⟩

/-- Claim C5, amended: an unresolvable destination channel is logged and the
operation returns normally, and a successful send returns normally; but a
rejected send (the channel's `send` raising) propagates out of `send_message`
instead of being logged. -/
theorem send_message_behavior (text : String) :
    send_message none text = Except.ok false ∧
    send_message (some (Except.ok ())) text = Except.ok true ∧
    ∀ e, send_message (some (Except.error e)) text = Except.error e :=
  ⟨rfl, rfl, fun _ => rfl⟩

/-- Claim C6: when at least one required setting is absent the startup check
aborts with a diagnostic in which every missing key occurs (not just the
first), and when all four are present the check passes; absence of a required
setting is exactly non-truthiness of the corresponding environment value. -/
theorem config_missing_check (c : Config) :
    (missingVars c ≠ [] →
      ∃ msg, startupCheck c = Except.error msg ∧
        ∀ k ∈ missingVars c, ∃ p q, msg = p ++ (k ++ q)) ∧
    (missingVars c = [] → startupCheck c = Except.ok ()) ∧
    (missingVars c = [] ↔
      (truthy c.discord_token ∧ truthy c.discord_channel_id ∧
       truthy c.canvas_base_url ∧ truthy c.canvas_api_token)) := by
  refine ⟨?_, ?_, ?_⟩
  · intro hne
    have hcond : ¬((missingVars c).isEmpty = true) := by
      cases hmv : missingVars c with
      | nil => exact absurd hmv hne
      | cons x xs => simp
    refine ⟨"❌ Missing environment variables: " ++ pyJoin ", " (missingVars c),
      by rw [startupCheck, if_neg hcond], ?_⟩
    intro k hk
    obtain ⟨p, q, hpq⟩ := pyJoin_mem_split ", " k (missingVars c) hk
    exact ⟨"❌ Missing environment variables: " ++ p, q, by
      rw [hpq, String.append_assoc]⟩
  · intro hmv
    rw [startupCheck, hmv]
    rfl
  · cases h1 : truthy c.discord_token <;>
      cases h2 : truthy c.discord_channel_id <;>
      cases h3 : truthy c.canvas_base_url <;>
      cases h4 : truthy c.canvas_api_token <;>
      simp [missingVars, h1, h2, h3, h4]

/-- Claim C6, witness: with `DISCORD_TOKEN` unset and `CANVAS_BASE_URL` empty,
startup aborts and the diagnostic carries both keys; with all four present the
check passes. -/
theorem config_missing_check_witness :
    (∃ msg,
      startupCheck ⟨none, some "123", some "", some "tok"⟩ = Except.error msg ∧
      ∀ k ∈ missingVars ⟨none, some "123", some "", some "tok"⟩,
        ∃ p q, msg = p ++ (k ++ q)) ∧
    startupCheck ⟨some "a", some "b", some "c", some "d"⟩ = Except.ok () :=
  ⟨(config_missing_check ⟨none, some "123", some "", some "tok"⟩).1 (by decide),
   (config_missing_check ⟨some "a", some "b", some "c", some "d"⟩).2.1 (by decide)⟩


/-- Invariant on process states reachable through ready events: before the
`booted` attribute exists nothing has been announced, the announcement count
never exceeds one, and the recurring-job list is empty until the scheduler is
started and exactly the three jobs thereafter. -/
def ReadyInv (s : BotState) : Prop :=
  (s.booted = false → s.announcements = 0) ∧
  s.announcements ≤ 1 ∧
  s.cronJobs = (if s.schedulerRunning then
    [CronJob.morningDigest, CronJob.middayDigest, CronJob.warnRescan] else [])

/-- One ready event preserves the invariant, whichever way its announcement
phase ends. -/
lemma readyStep_inv (s : BotState) (ch : Option (Except String Unit))
    (h : ReadyInv s) : ReadyInv (readyStep s ch) := by
  obtain ⟨h1, h2, h3⟩ := h
  cases hb : s.booted
  · have h0 : s.announcements = 0 := h1 hb
    cases ch with
    | none =>
      cases hr : s.schedulerRunning <;>
        simp_all [ReadyInv, readyStep, on_ready, Except.map, announcePhase, schedulerPhase]
    | some r =>
      cases r with
      | ok u =>
        cases hr : s.schedulerRunning <;>
          simp_all [ReadyInv, readyStep, on_ready, Except.map, announcePhase, schedulerPhase]
      | error e =>
        simp_all [ReadyInv, readyStep, on_ready, Except.map, announcePhase]
  · cases hr : s.schedulerRunning <;>
      simp_all [ReadyInv, readyStep, on_ready, Except.map, announcePhase, schedulerPhase]

/-- Every state a lifetime of ready events reaches satisfies the invariant. -/
lemma runReady_inv (events : List (Option (Except String Unit))) :
    ReadyInv (runReady events) := by
  have hgen : ∀ s, ReadyInv s → ReadyInv (events.foldl readyStep s) := by
    induction events with
    | nil => exact fun s h => h
    | cons ch rest ih =>
      intro s h
      simp only [List.foldl_cons]
      exact ih (readyStep s ch) (readyStep_inv s ch h)
  exact hgen initState ⟨fun _ => rfl, by decide, rfl⟩

/-- Once the `booted` attribute is set, further ready events never change the
announcement count (and `booted` stays set). -/
lemma announcements_frozen (events : List (Option (Except String Unit)))
    (s : BotState) (h : s.booted = true) :
    (events.foldl readyStep s).announcements = s.announcements ∧
    (events.foldl readyStep s).booted = true := by
  induction events generalizing s with
  | nil => exact ⟨rfl, h⟩
  | cons ch rest ih =>
    have hstep : (readyStep s ch).announcements = s.announcements ∧
        (readyStep s ch).booted = true := by
      cases hr : s.schedulerRunning <;>
        simp [readyStep, on_ready, Except.map, announcePhase, schedulerPhase, h, hr]
    simp only [List.foldl_cons]
    obtain ⟨ha, hb⟩ := hstep
    obtain ⟨ha2, hb2⟩ := ih (readyStep s ch) hb
    exact ⟨ha2.trans ha, hb2⟩

/-- Once the scheduler is running, further ready events never change the
recurring-job list (and the scheduler stays running). -/
lemma cron_frozen (events : List (Option (Except String Unit)))
    (s : BotState) (h : s.schedulerRunning = true) :
    (events.foldl readyStep s).cronJobs = s.cronJobs ∧
    (events.foldl readyStep s).schedulerRunning = true := by
  induction events generalizing s with
  | nil => exact ⟨rfl, h⟩
  | cons ch rest ih =>
    have hstep : (readyStep s ch).cronJobs = s.cronJobs ∧
        (readyStep s ch).schedulerRunning = true := by
      cases hb : s.booted
      · cases ch with
        | none => simp [readyStep, on_ready, Except.map, announcePhase, schedulerPhase, hb, h]
        | some r =>
          cases r <;>
            simp [readyStep, on_ready, Except.map, announcePhase, schedulerPhase, hb, h]
      · simp [readyStep, on_ready, Except.map, announcePhase, schedulerPhase, hb, h]
    simp only [List.foldl_cons]
    obtain ⟨h1, h2⟩ := hstep
    obtain ⟨h3, h4⟩ := ih (readyStep s ch) h2
    exact ⟨h3.trans h1, h4⟩

/-- An aborted first ready event — the announcement send raised — leaves the
whole run as if that event had not happened. -/
lemma readyStep_error (s : BotState) (e : String) (h : s.booted = false) :
    readyStep s (some (Except.error e)) = s := by
  simp [readyStep, on_ready, Except.map, announcePhase, h]

/-- Claim C4, counterexample: a lifetime whose first ready event resolves the
channel but whose announcement send raises (the unguarded `channel.send` at
line 130) gets NO announcement at that first ready event; the announcement
then first fires at the second ready event — a transport reconnect — so the
claim's "exactly once, at the first ready event, never on a later reconnect"
is false of the program. -/
theorem announce_missed_first_ready :
    (runReady [some (Except.error "rejected")]).announcements = 0 ∧
    (runReady [some (Except.error "rejected"), some (Except.ok ())]).announcements
      = 1 := by
  decide

/-- Claim C4, amended: in every process lifetime the "bot online" announcement
is sent at most once, and once a ready event completes its announcement phase
no later ready event re-sends it; in a lifetime whose first ready event
resolves the channel and whose send succeeds it is sent exactly once, at that
first ready event.  A first ready event whose send raises leaves the process
state unchanged — the handler aborts before `bot.booted = True` — so the
announcement is re-attempted and may first fire only at a later reconnect, or
never. -/
theorem announce_at_most_once :
    (∀ events, (runReady events).announcements ≤ 1) ∧
    (∀ rest, (runReady (some (Except.ok ()) :: rest)).announcements = 1) ∧
    (∀ e rest, runReady (some (Except.error e) :: rest) = runReady rest) := by
  refine ⟨?_, ?_, ?_⟩
  · intro events
    exact (runReady_inv events).2.1
  · intro rest
    have h1 : readyStep initState (some (Except.ok ())) =
        { booted := true, announcements := 1, schedulerRunning := true,
          cronJobs := [CronJob.morningDigest, CronJob.middayDigest,
                       CronJob.warnRescan] } := by
      rfl
    unfold runReady
    rw [List.foldl_cons, h1]
    exact (announcements_frozen rest _ rfl).1
  · intro e rest
    unfold runReady
    rw [List.foldl_cons, readyStep_error initState e rfl]

/-- Claim C10, counterexample: a first ready event whose announcement send
raises aborts `on_ready` before the scheduler block, so after it NO recurring
job is registered; the three jobs are only registered at the second ready
event — a reconnect — so the claim's "registered exactly once, at the first
ready event" is false of the program. -/
theorem cron_jobs_missed_first_ready :
    (runReady [some (Except.error "rejected")]).cronJobs = [] ∧
    (runReady [some (Except.error "rejected"), some (Except.ok ())]).cronJobs =
      [CronJob.morningDigest, CronJob.middayDigest, CronJob.warnRescan] := by
  decide

/-- Claim C10, amended: in every process lifetime the scheduler's
recurring-job list is never anything but empty or exactly the three jobs —
the `scheduler.running` guard admits no duplicates however many ready events
occur — and the three jobs are registered at the first ready event that
completes its announcement phase: at the first ready event itself whenever
its channel lookup is empty or its send succeeds, while a first ready event
whose announcement send raises aborts before the scheduler block and
registers nothing, deferring registration to the next ready event. -/
theorem cron_jobs_no_duplicates :
    (∀ events, (runReady events).cronJobs = [] ∨
      (runReady events).cronJobs =
        [CronJob.morningDigest, CronJob.middayDigest, CronJob.warnRescan]) ∧
    (∀ rest, (runReady (some (Except.ok ()) :: rest)).cronJobs =
        [CronJob.morningDigest, CronJob.middayDigest, CronJob.warnRescan]) ∧
    (∀ rest, (runReady (none :: rest)).cronJobs =
        [CronJob.morningDigest, CronJob.middayDigest, CronJob.warnRescan]) ∧
    (∀ e rest, runReady (some (Except.error e) :: rest) = runReady rest) := by
  refine ⟨?_, ?_, ?_, ?_⟩
  · intro events
    have h := (runReady_inv events).2.2
    cases hr : (runReady events).schedulerRunning
    · rw [hr] at h
      exact Or.inl (by simpa using h)
    · rw [hr] at h
      exact Or.inr (by simpa using h)
  · intro rest
    have h1 : readyStep initState (some (Except.ok ())) =
        { booted := true, announcements := 1, schedulerRunning := true,
          cronJobs := [CronJob.morningDigest, CronJob.middayDigest,
                       CronJob.warnRescan] } := by
      rfl
    unfold runReady
    rw [List.foldl_cons, h1]
    exact ((cron_frozen rest _ rfl).1).trans rfl
  · intro rest
    have h1 : readyStep initState none =
        { booted := true, announcements := 0, schedulerRunning := true,
          cronJobs := [CronJob.morningDigest, CronJob.middayDigest,
                       CronJob.warnRescan] } := by
      rfl
    unfold runReady
    rw [List.foldl_cons, h1]
    exact ((cron_frozen rest _ rfl).1).trans rfl
  · intro e rest
    unfold runReady
    rw [List.foldl_cons, readyStep_error initState e rfl]
